import Mathlib

/-!
Verification of the department request-tracking application
(keyword classifier, request-creation form, row-level authorization
policies, and the resolved-at trigger of the requests schema).

JavaScript strings are modelled as `String` at the API boundary and as
`List Char` where the code scans text character by character; regular
expressions in the source are flat alternations of literal lowercase
substrings, so matching is modelled as substring occurrence.
-/

namespace DeptRequests

/-! ### Classifier (lib/ai.ts) -/

/-- Character-list version of `String.startsWith`: the first argument
occurs at the head of the second. -/
def listStartsWith : List Char → List Char → Bool
  | [], _ => true
  | _ :: _, [] => false
  | a :: as, b :: bs => a == b && listStartsWith as bs

/-- The needle occurs as a contiguous substring of the haystack;
models a JavaScript `text.match(/literal/)` test. -/
def occursIn (needle : List Char) : List Char → Bool
  | [] => needle.isEmpty
  | b :: bs => listStartsWith needle (b :: bs) || occursIn needle bs

/-- Keyword alternation of the IT rule regex in `categorizeRequest`. -/
def itKeywords : List String :=
  ["computer", "laptop", "software", "network", "internet", "wifi",
   "password", "email", "printer", "it", "technical", "system"]

/-- Keyword alternation of the Facilities rule regex. -/
def facilitiesKeywords : List String :=
  ["clean", "room", "office", "repair", "maintenance", "hvac",
   "air condition", "heating", "ventilation", "building"]

/-- Keyword alternation of the Equipment rule regex. -/
def equipmentKeywords : List String :=
  ["desk", "chair", "furniture", "equipment", "table", "cabinet",
   "storage", "supplies"]

/-- Keyword alternation of the Safety rule regex. -/
def safetyKeywords : List String :=
  ["safety", "fire", "emergency", "hazard", "accident", "injury",
   "security", "alarm", "evacuation"]

/-- Keyword alternation of the HR rule regex. -/
def hrKeywords : List String :=
  ["leave", "vacation", "payroll", "benefits", "training", "hr",
   "human resource", "staff", "employee", "recruitment"]

/-- Keyword alternation of the Critical rule regex in `determinePriority`. -/
def criticalKeywords : List String :=
  ["urgent", "emergency", "critical", "immediate", "asap", "broken",
   "not working", "down", "fire", "safety", "injury"]

/-- Keyword alternation of the High rule regex. -/
def highKeywords : List String :=
  ["important", "high priority", "soon", "needed", "blocking", "cannot work"]

/-- Keyword alternation of the Low rule regex. -/
def lowKeywords : List String :=
  ["low priority", "when possible", "not urgent", "minor", "small"]

/-- A rule regex matches when any of its literal alternatives occurs in
the text. -/
def matchesAny (kws : List String) (text : List Char) : Bool :=
  kws.any fun k => occursIn k.data text

/-- The lower-cased concatenation of title and description built by
`analyzeRequest`: the template string joining them with a single space,
then `toLowerCase`. -/
def lowerText (title description : String) : List Char :=
  (title.data ++ (' ' :: description.data)).map Char.toLower

/-- `categorizeRequest` of lib/ai.ts: ordered first-match-wins keyword
rules, falling through to the category Other. -/
def categorizeRequest (text : List Char) : String :=
  if matchesAny itKeywords text then "IT and Technical Support"
  else if matchesAny facilitiesKeywords text then "Facilities and Maintenance"
  else if matchesAny equipmentKeywords text then "Equipment and Furniture"
  else if matchesAny safetyKeywords text then "Safety and Fire Protection"
  else if matchesAny hrKeywords text then "HR and Staff Matters"
  else "Other"

/-- `determinePriority` of lib/ai.ts: ordered keyword rules falling
through to Medium. -/
def determinePriority (text : List Char) : String :=
  if matchesAny criticalKeywords text then "Critical"
  else if matchesAny highKeywords text then "High"
  else if matchesAny lowKeywords text then "Low"
  else "Medium"

/-- `generateResponse` of lib/ai.ts: a record lookup keyed by category,
interpolating the title, with the Other entry as fallback. -/
def generateResponse (title category : String) : String :=
  if category = "IT and Technical Support" then
    "Your request regarding \"" ++ title ++ "\" has been received and forwarded to the IT and Technical Support Division. Our team will review your request and contact you shortly."
  else if category = "Facilities and Maintenance" then
    "Your request regarding \"" ++ title ++ "\" has been received and forwarded to the Facilities and Maintenance Division. A technician will be assigned to address your concern."
  else if category = "Equipment and Furniture" then
    "Your request regarding \"" ++ title ++ "\" has been received and forwarded to the Equipment and Furniture Division. We will process your request and notify you of the next steps."
  else if category = "Safety and Fire Protection" then
    "Your request regarding \"" ++ title ++ "\" has been received and forwarded to the Safety and Fire Protection Division. This matter will be treated with high priority."
  else if category = "HR and Staff Matters" then
    "Your request regarding \"" ++ title ++ "\" has been received and forwarded to the Human Resources Division. An HR representative will contact you to discuss your request."
  else
    "Your request regarding \"" ++ title ++ "\" has been received. We will review the details and route it to the appropriate department for handling."

/-- `getAssignedUnit` of lib/ai.ts: a record lookup keyed by category
with the fallback General Support. -/
def getAssignedUnit (category : String) : String :=
  if category = "IT and Technical Support" then "IT Division"
  else if category = "Facilities and Maintenance" then "Technical Division"
  else if category = "Equipment and Furniture" then "Procurement Division"
  else if category = "Safety and Fire Protection" then "Safety Division"
  else if category = "HR and Staff Matters" then "HR Division"
  else if category = "Other" then "General Support"
  else "General Support"

/-- Result record of `analyzeRequest`. -/
structure Analysis where
  category : String
  priority : String
  aiResponse : String
  assignedUnit : String
deriving DecidableEq

/-- `analyzeRequest` of lib/ai.ts: lower-cases title and description and
runs the category, priority, response and unit computations. -/
def analyzeRequest (title description : String) : Analysis :=
  let text := lowerText title description
  let category := categorizeRequest text
  { category := category
    priority := determinePriority text
    aiResponse := generateResponse title category
    assignedUnit := getAssignedUnit category }

/-! ### Schema rows (migration 20251106123731_create_requests_table.sql)

Identifiers (`uuid`) are modelled as strings; `timestamptz` values as
naturals; nullable timestamps as `Option Nat`.  The `id` and
`created_at` columns of `user_roles` and `request_comments` are omitted:
no policy or application read examined here references them. -/

/-- A row of the `user_roles` table: `role` is constrained by
`CHECK (role IN ('submitter', 'handler'))` and `UNIQUE(user_id, role)`. -/
structure RoleRow where
  user_id : String
  role : String
deriving DecidableEq

/-- A row of the `requests` table. -/
structure RequestRow where
  id : String
  title : String
  description : String
  category : String
  priority : String
  status : String
  submitter_id : String
  submitter_name : String
  assigned_unit : String
  assigned_handler : String
  ai_response : String
  created_at : Nat
  updated_at : Nat
  resolved_at : Option Nat
  deadline : Option Nat
deriving DecidableEq

/-- A row of the `request_comments` table (columns referenced by the
insert policy). -/
structure CommentRow where
  request_id : String
  user_id : String
deriving DecidableEq

/-! ### Row-level security policies -/

/-- The `EXISTS (SELECT 1 FROM user_roles WHERE user_roles.user_id =
auth.uid() AND user_roles.role = 'handler')` subquery shared by the
handler policies. -/
def isHandler (uid : String) (roles : List RoleRow) : Bool :=
  roles.any fun r => r.user_id == uid && r.role == "handler"

/-- Policy "Users can create requests" (INSERT, WITH CHECK). -/
def requestsInsertAllowed (uid : String) (row : RequestRow) : Bool :=
  uid == row.submitter_id

/-- The two permissive SELECT policies on `requests` ("Submitters can
view own requests" OR "Handlers can view all requests"); permissive
policies for the same command are disjoined. -/
def requestsSelectAllowed (uid : String) (roles : List RoleRow)
    (row : RequestRow) : Bool :=
  uid == row.submitter_id || isHandler uid roles

/-- Policy "Handlers can update requests", USING clause (pre-image). -/
def requestsUpdateUsingAllowed (uid : String) (roles : List RoleRow)
    (_row : RequestRow) : Bool :=
  isHandler uid roles

/-- Policy "Handlers can update requests", WITH CHECK clause (post-image). -/
def requestsUpdateCheckAllowed (uid : String) (roles : List RoleRow)
    (_row : RequestRow) : Bool :=
  isHandler uid roles

/-- Policy "Handlers can delete requests" (DELETE, USING). -/
def requestsDeleteAllowed (uid : String) (roles : List RoleRow)
    (_row : RequestRow) : Bool :=
  isHandler uid roles

/-- The `EXISTS (SELECT 1 FROM requests WHERE requests.id = request_id
AND requests.submitter_id = auth.uid())` subquery of the comment
policies. -/
def ownsRequest (uid : String) (requests : List RequestRow)
    (rid : String) : Bool :=
  requests.any fun req => req.id == rid && req.submitter_id == uid

/-- Policy "Users can create comments on accessible requests"
(INSERT on `request_comments`, WITH CHECK). -/
def commentsInsertAllowed (uid : String) (roles : List RoleRow)
    (requests : List RequestRow) (c : CommentRow) : Bool :=
  uid == c.user_id &&
    (ownsRequest uid requests c.request_id || isHandler uid roles)

/-- Policy "Users can view own roles" (SELECT on `user_roles`). -/
def userRolesSelectAllowed (uid : String) (r : RoleRow) : Bool :=
  uid == r.user_id

/-- Policy "Users can insert own role" (migration
20251106123807_add_user_roles_insert_policy.sql, WITH CHECK). -/
def userRolesInsertAllowed (uid : String) (r : RoleRow) : Bool :=
  uid == r.user_id

/-! ### Operations on the `user_roles` table -/

/-- A data-modifying statement against `user_roles`. -/
inductive RolesOp where
  | ins (row : RoleRow)
  | upd (oldRow newRow : RoleRow)
  | del (row : RoleRow)
deriving DecidableEq

/-- Whether a statement by the authenticated caller `uid` passes the
table's row-level security and constraints in state `s`: inserts must
pass "Users can insert own role", the role CHECK and `UNIQUE(user_id,
role)`; the table has no UPDATE and no DELETE policy, so row-level
security denies those commands for every row. -/
def rolesOpAllowed (uid : String) (s : List RoleRow) : RolesOp → Bool
  | .ins row =>
      userRolesInsertAllowed uid row
        && (row.role == "submitter" || row.role == "handler")
        && !(s.any fun r => r.user_id == row.user_id && r.role == row.role)
  | .upd _ _ => false
  | .del _ => false

/-- Effect of a statement on the table contents. -/
def rolesApply (s : List RoleRow) : RolesOp → List RoleRow
  | .ins row => s ++ [row]
  | .upd oldRow newRow => s.map fun r => if r == oldRow then newRow else r
  | .del row => s.filter fun r => !(r == row)

/-- States of `user_roles` reachable from `s` through statements issued
by the caller `uid`, each admitted by `rolesOpAllowed`. -/
inductive RolesReachable (uid : String) : List RoleRow → List RoleRow → Prop
  | refl (s : List RoleRow) : RolesReachable uid s s
  | step (s t : List RoleRow) (op : RolesOp) :
      RolesReachable uid s t → rolesOpAllowed uid t op = true →
      RolesReachable uid s (rolesApply t op)

/-! ### Triggers on `requests` -/

/-- Trigger function `update_updated_at_column`: stamps `updated_at`
with the current time on the new image. -/
def update_updated_at_column (now : Nat) (new : RequestRow) : RequestRow :=
  { new with updated_at := now }

/-- Trigger function `set_resolved_at`: on the transition into
'Resolved' stamps `resolved_at`; when the new status is not 'Resolved'
clears it; otherwise (both images 'Resolved') leaves the new image's
`resolved_at` untouched. -/
def set_resolved_at (now : Nat) (oldRow new : RequestRow) : RequestRow :=
  if new.status = "Resolved" ∧ oldRow.status ≠ "Resolved" then
    { new with resolved_at := some now }
  else if new.status ≠ "Resolved" then
    { new with resolved_at := none }
  else new

/-- An UPDATE of a `requests` row: both BEFORE UPDATE triggers run on
the new image (`update_requests_updated_at` fires before
`update_resolved_at` in name order; they touch disjoint columns). -/
def performUpdate (now : Nat) (oldRow new : RequestRow) : RequestRow :=
  set_resolved_at now oldRow (update_updated_at_column now new)

/-- The `status` column on INSERT: the supplied value, or the schema
default 'Received'. -/
def insertedStatus (supplied : Option String) : String :=
  supplied.getD "Received"

/-- The `resolved_at` column on INSERT: the supplied value, or NULL —
no trigger runs on INSERT (`update_resolved_at` is BEFORE UPDATE only). -/
def insertedResolvedAt (supplied : Option (Option Nat)) : Option Nat :=
  supplied.getD none

/-- The specified invariant relating `resolved_at` and `status`:
`resolved_at` is non-null exactly when the status is 'Resolved'. -/
def resolvedInvariant (status : String) (resolved_at : Option Nat) : Bool :=
  resolved_at.isSome == (status == "Resolved")

/-! ### Request creation (components/NewRequestForm.tsx) -/

/-- The column values of the row inserted by `handleSubmit`. -/
structure InsertedRequest where
  title : String
  description : String
  category : String
  priority : String
  submitter_id : String
  submitter_name : String
  assigned_unit : String
  ai_response : String
  status : String
deriving DecidableEq

/-- `handleSubmit` of NewRequestForm: runs `analyzeRequest` and inserts
a row whose category and priority are `manualCategory ||
analysis.category` and `manualPriority || analysis.priority` (the
JavaScript or-else: the manual value wins exactly when it is a
non-empty string), with `assigned_unit` and `ai_response` taken from
the analysis and status 'Received'. -/
def buildRequestInsert (title description manualCategory manualPriority
    uid uname : String) : InsertedRequest :=
  let analysis := analyzeRequest title description
  { title := title
    description := description
    category := if manualCategory = "" then analysis.category else manualCategory
    priority := if manualPriority = "" then analysis.priority else manualPriority
    submitter_id := uid
    submitter_name := uname
    assigned_unit := analysis.assignedUnit
    ai_response := analysis.aiResponse
    status := "Received" }

/-! ### Role resolution and view routing (AuthContext, App) -/

/-- The rows of `user_roles` matching `.eq('user_id', userId)`. -/
def userRoleRows (uid : String) (roles : List RoleRow) : List RoleRow :=
  roles.filter fun r => r.user_id == uid

/-- `maybeSingle()` on a query result: no row gives null data, exactly
one row gives that row, more than one row is an error whose data is
null. -/
def maybeSingle (rows : List RoleRow) : Except Unit (Option RoleRow) :=
  match rows with
  | [] => .ok none
  | [r] => .ok (some r)
  | _ => .error ()

/-- `fetchUserRole` of AuthContext: the destructured `data` is null both
when no row exists and when `maybeSingle` errors, and the role defaults
to 'submitter' via `data?.role ?? 'submitter'`. -/
def fetchUserRole (uid : String) (roles : List RoleRow) : String :=
  match maybeSingle (userRoleRows uid roles) with
  | .ok (some r) => r.role
  | .ok none => "submitter"
  | .error _ => "submitter"

/-- The two authenticated views of the application shell. -/
inductive AppView where
  | handlerView
  | submitterView
deriving DecidableEq

/-- `AppContent` of App.tsx: `userRole === 'handler' ? <HandlerView /> :
<SubmitterView />`. -/
def routeView (userRole : String) : AppView :=
  if userRole = "handler" then .handlerView else .submitterView

/-- A sample `requests` row used to instantiate policy statements. -/
def sampleRequest : RequestRow :=
  { id := "r1", title := "t", description := "d", category := "Other",
    priority := "Medium", status := "Received", submitter_id := "u1",
    submitter_name := "n", assigned_unit := "", assigned_handler := "",
    ai_response := "", created_at := 0, updated_at := 0,
    resolved_at := none, deadline := none }

/-! ### Supporting lemmas about substring occurrence -/

theorem listStartsWith_append (n xs ys : List Char)
    (h : listStartsWith n xs = true) : listStartsWith n (xs ++ ys) = true := by
  induction n generalizing xs with
  | nil => rfl
  | cons a as ih =>
    cases xs with
    | nil => simp [listStartsWith] at h
    | cons b bs =>
      rw [List.cons_append]
      simp only [listStartsWith, Bool.and_eq_true] at h ⊢
      exact ⟨h.1, ih bs h.2⟩

theorem occursIn_append_left (n xs ys : List Char)
    (h : occursIn n xs = true) : occursIn n (xs ++ ys) = true := by
  induction xs with
  | nil =>
    have hn : n = [] := by
      simpa [occursIn, List.isEmpty_iff] using h
    subst hn
    cases ys with
    | nil => rfl
    | cons b bs => simp [occursIn, listStartsWith]
  | cons b bs ih =>
    rw [List.cons_append]
    simp only [occursIn, Bool.or_eq_true] at h ⊢
    rcases h with h | h
    · exact Or.inl (listStartsWith_append n (b :: bs) ys h)
    · exact Or.inr (ih h)

theorem matchesAny_of_kw (kws : List String) (k : String) (hk : k ∈ kws)
    (text : List Char) (h : occursIn k.data text = true) :
    matchesAny kws text = true := by
  unfold matchesAny
  exact List.any_eq_true.mpr ⟨k, hk, h⟩

/-! ### Claims about the authorization policies -/

/-- C1: a caller holding a handler role row satisfies the select, both
update clauses, and the delete policy predicate on every `requests` row;
a caller holding no handler role row satisfies the select predicate
exactly on rows whose `submitter_id` is their uid, and satisfies the
update and delete predicates on no row. -/
theorem requests_policies_by_role (uid : String) (roles : List RoleRow)
    (row : RequestRow) :
    (isHandler uid roles = true →
        requestsSelectAllowed uid roles row = true
          ∧ requestsUpdateUsingAllowed uid roles row = true
          ∧ requestsUpdateCheckAllowed uid roles row = true
          ∧ requestsDeleteAllowed uid roles row = true)
      ∧ (isHandler uid roles = false →
        ((requestsSelectAllowed uid roles row = true ↔ row.submitter_id = uid)
          ∧ requestsUpdateUsingAllowed uid roles row = false
          ∧ requestsUpdateCheckAllowed uid roles row = false
          ∧ requestsDeleteAllowed uid roles row = false)) := by
  constructor
  · intro h
    simp [requestsSelectAllowed, requestsUpdateUsingAllowed,
      requestsUpdateCheckAllowed, requestsDeleteAllowed, h]
  · intro h
    refine ⟨?_, by simp [requestsUpdateUsingAllowed, h],
      by simp [requestsUpdateCheckAllowed, h],
      by simp [requestsDeleteAllowed, h]⟩
    simp only [requestsSelectAllowed, h, Bool.or_false, beq_iff_eq]
    exact eq_comm

theorem requests_policies_by_role_witness :
    (requestsSelectAllowed "h1" [⟨"h1", "handler"⟩] sampleRequest = true
      ∧ requestsUpdateUsingAllowed "h1" [⟨"h1", "handler"⟩] sampleRequest = true
      ∧ requestsUpdateCheckAllowed "h1" [⟨"h1", "handler"⟩] sampleRequest = true
      ∧ requestsDeleteAllowed "h1" [⟨"h1", "handler"⟩] sampleRequest = true)
    ∧ ((requestsSelectAllowed "u1" [] sampleRequest = true
          ↔ sampleRequest.submitter_id = "u1")
      ∧ requestsUpdateUsingAllowed "u1" [] sampleRequest = false
      ∧ requestsUpdateCheckAllowed "u1" [] sampleRequest = false
      ∧ requestsDeleteAllowed "u1" [] sampleRequest = false) :=
  ⟨(requests_policies_by_role "h1" [⟨"h1", "handler"⟩] sampleRequest).1
      (by decide),
   (requests_policies_by_role "u1" [] sampleRequest).2 (by decide)⟩

/-! ### Claims about the classifier -/

/-- C7: for every description, the title containing both "fire"/"alarm"
(Safety keywords) and "computer" (an IT keyword) classifies as IT and
Technical Support, because the IT rule precedes the Safety rule in the
first-match-wins chain; both rule predicates indeed match. -/
theorem categorize_fire_alarm_slow_computer (description : String) :
    (analyzeRequest "fire alarm and a slow computer" description).category
        = "IT and Technical Support"
      ∧ matchesAny itKeywords
          (lowerText "fire alarm and a slow computer" description) = true
      ∧ matchesAny safetyKeywords
          (lowerText "fire alarm and a slow computer" description) = true := by
  have htext : lowerText "fire alarm and a slow computer" description
      = ("fire alarm and a slow computer".data.map Char.toLower)
        ++ ((' ' :: description.data).map Char.toLower) := by
    unfold lowerText
    rw [List.map_append]
  have hcomputer : occursIn "computer".data
      (lowerText "fire alarm and a slow computer" description) = true := by
    rw [htext]
    exact occursIn_append_left _ _ _ (by decide)
  have hfire : occursIn "fire".data
      (lowerText "fire alarm and a slow computer" description) = true := by
    rw [htext]
    exact occursIn_append_left _ _ _ (by decide)
  have hit : matchesAny itKeywords
      (lowerText "fire alarm and a slow computer" description) = true :=
    matchesAny_of_kw _ "computer" (by decide) _ hcomputer
  have hsafety : matchesAny safetyKeywords
      (lowerText "fire alarm and a slow computer" description) = true :=
    matchesAny_of_kw _ "fire" (by decide) _ hfire
  refine ⟨?_, hit, hsafety⟩
  simp [analyzeRequest, categorizeRequest, hit]

/-- C8: classify on two empty strings returns Other, Medium and General
Support; the classifier is total — its outputs always lie among the
defined values — and unmatched text falls through every keyword rule to
the fallbacks Other and Medium. -/
theorem classifier_total_and_empty_fallback :
    (analyzeRequest "" "").category = "Other"
      ∧ (analyzeRequest "" "").priority = "Medium"
      ∧ (analyzeRequest "" "").assignedUnit = "General Support"
      ∧ (∀ title description,
          (analyzeRequest title description).category ∈
            ["IT and Technical Support", "Facilities and Maintenance",
             "Equipment and Furniture", "Safety and Fire Protection",
             "HR and Staff Matters", "Other"]
          ∧ (analyzeRequest title description).priority ∈
            ["Critical", "High", "Low", "Medium"]
          ∧ (analyzeRequest title description).assignedUnit ∈
            ["IT Division", "Technical Division", "Procurement Division",
             "Safety Division", "HR Division", "General Support"])
      ∧ (∀ text : List Char,
          (matchesAny itKeywords text = false →
           matchesAny facilitiesKeywords text = false →
           matchesAny equipmentKeywords text = false →
           matchesAny safetyKeywords text = false →
           matchesAny hrKeywords text = false →
              categorizeRequest text = "Other")
          ∧ (matchesAny criticalKeywords text = false →
             matchesAny highKeywords text = false →
             matchesAny lowKeywords text = false →
                determinePriority text = "Medium")) := by
  refine ⟨by decide, by decide, by decide, ?_, ?_⟩
  · intro title description
    refine ⟨?_, ?_, ?_⟩
    · show categorizeRequest _ ∈ _
      unfold categorizeRequest
      repeat' split
      all_goals simp
    · show determinePriority _ ∈ _
      unfold determinePriority
      repeat' split
      all_goals simp
    · show getAssignedUnit _ ∈ _
      unfold getAssignedUnit
      repeat' split
      all_goals simp
  · intro text
    constructor
    · intro h1 h2 h3 h4 h5
      simp [categorizeRequest, h1, h2, h3, h4, h5]
    · intro h1 h2 h3
      simp [determinePriority, h1, h2, h3]

theorem classifier_total_and_empty_fallback_witness :
    categorizeRequest [] = "Other" ∧ determinePriority [] = "Medium" :=
  ⟨(classifier_total_and_empty_fallback.2.2.2.2 []).1 (by decide) (by decide)
      (by decide) (by decide) (by decide),
   (classifier_total_and_empty_fallback.2.2.2.2 []).2 (by decide) (by decide)
      (by decide)⟩

/-! ### Claims about request creation -/

/-- C4: a non-empty manual category or priority supplied to the request
form is stored verbatim, for every title and description; an empty (not
supplied) override falls back to the classifier output. -/
theorem manual_override_wins (title description manualCategory
    manualPriority uid uname : String) :
    (manualCategory ≠ "" →
        (buildRequestInsert title description manualCategory manualPriority
          uid uname).category = manualCategory)
      ∧ (manualPriority ≠ "" →
        (buildRequestInsert title description manualCategory manualPriority
          uid uname).priority = manualPriority)
      ∧ (manualCategory = "" →
        (buildRequestInsert title description manualCategory manualPriority
          uid uname).category = (analyzeRequest title description).category)
      ∧ (manualPriority = "" →
        (buildRequestInsert title description manualCategory manualPriority
          uid uname).priority = (analyzeRequest title description).priority) := by
  refine ⟨?_, ?_, ?_, ?_⟩ <;> intro h <;> simp [buildRequestInsert, h]

theorem manual_override_wins_witness :
    (buildRequestInsert "t" "d" "Other" "" "u1" "n").category = "Other"
      ∧ (buildRequestInsert "t" "d" "" "High" "u1" "n").priority = "High"
      ∧ (buildRequestInsert "t" "d" "Other" "" "u1" "n").priority
          = (analyzeRequest "t" "d").priority
      ∧ (buildRequestInsert "t" "d" "" "High" "u1" "n").category
          = (analyzeRequest "t" "d").category :=
  ⟨(manual_override_wins "t" "d" "Other" "" "u1" "n").1 (by decide),
   (manual_override_wins "t" "d" "" "High" "u1" "n").2.1 (by decide),
   (manual_override_wins "t" "d" "Other" "" "u1" "n").2.2.2 rfl,
   (manual_override_wins "t" "d" "" "High" "u1" "n").2.2.1 rfl⟩

/-- C5 counterexample: with a manual category override (HR) on text the
classifier puts in IT, the stored row's assigned_unit is the IT
Division — the unit of the classifier's category — while the lookup
table applied to the stored category yields the HR Division, so the
stored assigned_unit differs from the lookup of the stored category. -/
theorem assigned_unit_override_counterexample :
    (buildRequestInsert "slow computer" "" "HR and Staff Matters" ""
        "u1" "n").category = "HR and Staff Matters"
      ∧ (buildRequestInsert "slow computer" "" "HR and Staff Matters" ""
          "u1" "n").assigned_unit = "IT Division"
      ∧ getAssignedUnit "HR and Staff Matters" = "HR Division"
      ∧ (buildRequestInsert "slow computer" "" "HR and Staff Matters" ""
            "u1" "n").assigned_unit
          ≠ getAssignedUnit ((buildRequestInsert "slow computer" ""
            "HR and Staff Matters" "" "u1" "n").category) := by
  refine ⟨by decide, by decide, by decide, by decide⟩

/-- C5 amended: the stored assigned_unit always equals the lookup table
applied to the classifier's category of title and description; this
coincides with the lookup of the stored category exactly when no manual
category override is supplied. -/
theorem assigned_unit_follows_classifier (title description manualCategory
    manualPriority uid uname : String) :
    (buildRequestInsert title description manualCategory manualPriority
          uid uname).assigned_unit
        = getAssignedUnit ((analyzeRequest title description).category)
      ∧ (manualCategory = "" →
          (buildRequestInsert title description manualCategory manualPriority
              uid uname).assigned_unit
            = getAssignedUnit ((buildRequestInsert title description
              manualCategory manualPriority uid uname).category)) := by
  constructor
  · simp [buildRequestInsert, analyzeRequest]
  · intro h
    simp [buildRequestInsert, analyzeRequest, h]

theorem assigned_unit_follows_classifier_witness :
    (buildRequestInsert "slow computer" "" "" "" "u1" "n").assigned_unit
      = getAssignedUnit ((buildRequestInsert "slow computer" "" "" ""
        "u1" "n").category) :=
  (assigned_unit_follows_classifier "slow computer" "" "" "" "u1" "n").2 rfl

/-- C6: the comment insert policy is violated whenever the caller
neither owns the parent request nor holds a handler role row, and it is
satisfied exactly when the comment carries the caller's own user_id and
the caller owns the parent request or holds the handler role. -/
theorem comments_insert_policy_characterization (uid : String)
    (roles : List RoleRow) (requests : List RequestRow) (c : CommentRow) :
    ((ownsRequest uid requests c.request_id = false
        ∧ isHandler uid roles = false) →
        commentsInsertAllowed uid roles requests c = false)
      ∧ (commentsInsertAllowed uid roles requests c = true ↔
          (uid = c.user_id
            ∧ (ownsRequest uid requests c.request_id = true
                ∨ isHandler uid roles = true))) := by
  constructor
  · rintro ⟨h1, h2⟩
    simp [commentsInsertAllowed, h1, h2]
  · simp [commentsInsertAllowed]

theorem comments_insert_policy_characterization_witness :
    commentsInsertAllowed "u2" [] [sampleRequest] ⟨"r1", "u2"⟩ = false :=
  (comments_insert_policy_characterization "u2" [] [sampleRequest]
      ⟨"r1", "u2"⟩).1 ⟨by decide, by decide⟩

/-! ### Claims about role resolution and routing -/

/-- C9: when no role row exists for the caller, the effective role is
'submitter' and the shell routes to the submitter view, never to the
handler view. -/
theorem no_role_row_routes_to_submitter (uid : String) (roles : List RoleRow)
    (h : userRoleRows uid roles = []) :
    fetchUserRole uid roles = "submitter"
      ∧ routeView (fetchUserRole uid roles) = AppView.submitterView := by
  have hrole : fetchUserRole uid roles = "submitter" := by
    unfold fetchUserRole
    rw [h]
    rfl
  exact ⟨hrole, by rw [hrole]; decide⟩

theorem no_role_row_routes_to_submitter_witness :
    fetchUserRole "u1" [] = "submitter"
      ∧ routeView (fetchUserRole "u1" []) = AppView.submitterView :=
  no_role_row_routes_to_submitter "u1" [] rfl

/-- C10: a caller holding both a submitter and a handler role row —
permitted by UNIQUE(user_id, role) — makes the `maybeSingle` lookup
error with null data, so the default applies and the caller is routed
to the submitter view. -/
theorem dual_role_routes_to_submitter (uid : String) (roles : List RoleRow)
    (hs : RoleRow.mk uid "submitter" ∈ roles)
    (hh : RoleRow.mk uid "handler" ∈ roles) :
    maybeSingle (userRoleRows uid roles) = Except.error ()
      ∧ fetchUserRole uid roles = "submitter"
      ∧ routeView (fetchUserRole uid roles) = AppView.submitterView := by
  have hs' : RoleRow.mk uid "submitter" ∈ userRoleRows uid roles :=
    List.mem_filter.mpr ⟨hs, by simp⟩
  have hh' : RoleRow.mk uid "handler" ∈ userRoleRows uid roles :=
    List.mem_filter.mpr ⟨hh, by simp⟩
  have herr : maybeSingle (userRoleRows uid roles) = Except.error () := by
    rcases hfilt : userRoleRows uid roles with _ | ⟨a, _ | ⟨b, rest⟩⟩
    · rw [hfilt] at hs'
      exact absurd hs' (List.not_mem_nil _)
    · rw [hfilt] at hs' hh'
      have h1 : RoleRow.mk uid "submitter" = a := by simpa using hs'
      have h2 : RoleRow.mk uid "handler" = a := by simpa using hh'
      have : ("submitter" : String) = "handler" :=
        congrArg RoleRow.role (h1.trans h2.symm)
      exact absurd this (by decide)
    · rfl
  have hrole : fetchUserRole uid roles = "submitter" := by
    unfold fetchUserRole
    rw [herr]
  exact ⟨herr, hrole, by rw [hrole]; decide⟩

theorem dual_role_routes_to_submitter_witness :
    maybeSingle (userRoleRows "u1"
        [RoleRow.mk "u1" "submitter", RoleRow.mk "u1" "handler"])
        = Except.error ()
      ∧ fetchUserRole "u1"
          [RoleRow.mk "u1" "submitter", RoleRow.mk "u1" "handler"]
          = "submitter"
      ∧ routeView (fetchUserRole "u1"
          [RoleRow.mk "u1" "submitter", RoleRow.mk "u1" "handler"])
          = AppView.submitterView :=
  dual_role_routes_to_submitter "u1" _ (by decide) (by decide)

/-! ### Claims about the user_roles interface -/

/-- C2 counterexample: a user holding only the submitter role passes
the insert policy, CHECK and UNIQUE constraints when inserting a
handler row for themselves; before the insert the policies see them as
a non-handler, afterwards as a handler — the role set the policies see
is changed by a reachable operation. -/
theorem user_roles_escalation_counterexample :
    rolesOpAllowed "u1" [RoleRow.mk "u1" "submitter"]
        (RolesOp.ins (RoleRow.mk "u1" "handler")) = true
      ∧ isHandler "u1" [RoleRow.mk "u1" "submitter"] = false
      ∧ isHandler "u1"
          (rolesApply [RoleRow.mk "u1" "submitter"]
            (RolesOp.ins (RoleRow.mk "u1" "handler"))) = true
      ∧ RolesReachable "u1" [RoleRow.mk "u1" "submitter"]
          [RoleRow.mk "u1" "submitter", RoleRow.mk "u1" "handler"] := by
  refine ⟨by decide, by decide, by decide, ?_⟩
  have h : RolesReachable "u1" [RoleRow.mk "u1" "submitter"]
      (rolesApply [RoleRow.mk "u1" "submitter"]
        (RolesOp.ins (RoleRow.mk "u1" "handler"))) :=
    RolesReachable.step _ _ _ (RolesReachable.refl _) (by decide)
  exact h

/-- C2 amended: through the user_roles interface an insert is admitted
only for the caller's own identity, and updates and deletes are never
admitted — so along every reachable sequence of operations no role row
is ever removed (privilege cannot be self-revoked) and every added row
belongs to the caller; the insert path does, however, allow the caller
to add further roles for themselves (escalation to handler is
reachable). -/
theorem user_roles_interface_amended :
    (∀ (uid : String) (s : List RoleRow) (row : RoleRow),
        rolesOpAllowed uid s (RolesOp.ins row) = true → row.user_id = uid)
      ∧ (∀ (uid : String) (s : List RoleRow) (o n : RoleRow),
          rolesOpAllowed uid s (RolesOp.upd o n) = false)
      ∧ (∀ (uid : String) (s : List RoleRow) (r : RoleRow),
          rolesOpAllowed uid s (RolesOp.del r) = false)
      ∧ (∀ (uid : String) (s t : List RoleRow), RolesReachable uid s t →
          (∀ r, r ∈ s → r ∈ t) ∧ (∀ r, r ∈ t → r ∈ s ∨ r.user_id = uid)) := by
  refine ⟨?_, ?_, ?_, ?_⟩
  · intro uid s row h
    simp only [rolesOpAllowed, userRolesInsertAllowed, Bool.and_eq_true,
      beq_iff_eq] at h
    exact h.1.1.symm
  · intro uid s o n
    rfl
  · intro uid s r
    rfl
  · intro uid s t hreach
    induction hreach with
    | refl => exact ⟨fun r hr => hr, fun r hr => Or.inl hr⟩
    | step t' op hr' hallowed ih =>
      cases op with
      | ins row =>
        have hrow : row.user_id = uid := by
          simp only [rolesOpAllowed, userRolesInsertAllowed, Bool.and_eq_true,
            beq_iff_eq] at hallowed
          exact hallowed.1.1.symm
        constructor
        · intro r hr
          simp only [rolesApply, List.mem_append, List.mem_singleton]
          exact Or.inl (ih.1 r hr)
        · intro r hr
          simp only [rolesApply, List.mem_append, List.mem_singleton] at hr
          rcases hr with hr | hr
          · exact ih.2 r hr
          · subst hr
            exact Or.inr hrow
      | upd o n =>
        simp [rolesOpAllowed] at hallowed
      | del r =>
        simp [rolesOpAllowed] at hallowed

theorem user_roles_interface_amended_witness :
    (RoleRow.mk "u1" "handler").user_id = "u1"
      ∧ (RoleRow.mk "u1" "submitter" ∈ [RoleRow.mk "u1" "submitter"]
          ∨ (RoleRow.mk "u1" "submitter").user_id = "u1") :=
  ⟨user_roles_interface_amended.1 "u1" [] (RoleRow.mk "u1" "handler")
      (by decide),
   (user_roles_interface_amended.2.2.2 "u1" [RoleRow.mk "u1" "submitter"]
       [RoleRow.mk "u1" "submitter"] (RolesReachable.refl _)).2
     (RoleRow.mk "u1" "submitter") (by decide)⟩

/-! ### Claims about the resolved_at invariant -/

/-- C3 counterexample: an INSERT supplying status 'Resolved' while
leaving `resolved_at` at its NULL default violates the invariant (no
trigger runs on INSERT); and an UPDATE that keeps the status 'Resolved'
in both images while setting `resolved_at` to NULL also leaves the row
violating it. -/
theorem resolved_at_invariant_counterexample :
    resolvedInvariant (insertedStatus (some "Resolved"))
        (insertedResolvedAt none) = false
      ∧ resolvedInvariant
          (performUpdate 7
            { sampleRequest with status := "Resolved", resolved_at := some 3 }
            { sampleRequest with status := "Resolved", resolved_at := none }).status
          (performUpdate 7
            { sampleRequest with status := "Resolved", resolved_at := some 3 }
            { sampleRequest with status := "Resolved", resolved_at := none }).resolved_at
        = false := by
  refine ⟨by decide, by decide⟩

/-- C3 amended: the invariant holds after every UPDATE except one whose
old and new images both carry status 'Resolved' while the new image
sets `resolved_at` to NULL; after an INSERT it holds whenever the
defaults are left in place — in particular after every insert built by
the request form, which always supplies status 'Received' and never
supplies `resolved_at` — but not after arbitrary inserts. -/
theorem resolved_at_invariant_amended :
    (∀ (now : Nat) (oldRow new : RequestRow),
        (oldRow.status ≠ "Resolved" ∨ new.status ≠ "Resolved"
            ∨ new.resolved_at ≠ none) →
        resolvedInvariant (performUpdate now oldRow new).status
          (performUpdate now oldRow new).resolved_at = true)
      ∧ resolvedInvariant (insertedStatus none) (insertedResolvedAt none) = true
      ∧ (∀ title description manualCategory manualPriority uid uname,
          resolvedInvariant
            (buildRequestInsert title description manualCategory
              manualPriority uid uname).status
            (insertedResolvedAt none) = true) := by
  refine ⟨?_, by decide, ?_⟩
  · intro now oldRow new h
    simp only [performUpdate, update_updated_at_column, set_resolved_at]
    split
    · rename_i hcase
      simp [resolvedInvariant, hcase.1]
    · split
      · rename_i hc1 hc2
        simp [resolvedInvariant, hc2]
      · rename_i hc1 hc2
        have hstat : new.status = "Resolved" := not_not.mp hc2
        have hold : oldRow.status = "Resolved" := by
          by_contra hco
          exact hc1 ⟨hstat, hco⟩
        have hra : new.resolved_at ≠ none := by
          rcases h with h | h | h
          · exact absurd hold h
          · exact absurd hstat h
          · exact h
        simp [resolvedInvariant, hstat, Option.isSome_iff_ne_none, hra]
  · intro title description manualCategory manualPriority uid uname
    rfl

theorem resolved_at_invariant_amended_witness :
    resolvedInvariant
        (performUpdate 7 sampleRequest
          { sampleRequest with status := "Resolved" }).status
        (performUpdate 7 sampleRequest
          { sampleRequest with status := "Resolved" }).resolved_at = true :=
  resolved_at_invariant_amended.1 7 sampleRequest
    { sampleRequest with status := "Resolved" } (Or.inl (by decide))

end DeptRequests
